import Mathlib

/-!
Shallow embedding of `src/list_govcloud_fsx.py` (class `GovCloudFSXInventory`).

External AWS interactions are modelled as explicit environment parameters:
  * `AuthOutcome` — result of the STS identity check in `connect`;
  * `List PageResult` — the pages yielded by the `list_accounts` paginator,
    a page either succeeding with raw account dictionaries or raising a
    `ClientError` with an error code;
  * `assumeOk : String → Bool` — whether `sts.assume_role` succeeds for a
    given account id;
  * `FsxEnv` — per session and region, the outcome of the paginated
    `describe_file_systems` call (a `ClientError` code or the file systems).

Every function returns, besides its value, the list of network calls it
performs, so that the dry-run claims about the absence of network calls can
be stated.
-/

/-- A raw account dictionary from an `organizations.list_accounts` page.
Optional fields model Python's `dict.get` with its defaults. -/
structure RawAccount where
  id : String
  name : Option String
  email : Option String
  status : Option String
deriving DecidableEq, Repr

/-- An account record as accumulated by `list_accounts`. -/
structure Account where
  id : String
  name : String
  email : String
  status : String
deriving DecidableEq, Repr

/-- A file system entry of a `describe_file_systems` page. -/
structure FsxRaw where
  fileSystemId : String
  fileSystemType : String
  creationTime : Option String
  lifecycle : Option String
deriving DecidableEq, Repr

/-- A file system record as accumulated by `list_fsx_systems`. -/
structure FsxRecord where
  filesystem_id : String
  filesystem_type : String
  region : String
  creation_time : String
  lifecycle : String
deriving DecidableEq, Repr

/-- A flattened inventory row as appended by `scan_accounts`. -/
structure InventoryRow where
  organizationName : String
  accountId : String
  fsxId : String
  fsxType : String
  region : String
  lifecycle : String
deriving DecidableEq, Repr

/-- The network calls the script can make. -/
inductive ApiCall where
  | getCallerIdentity
  | listAccountsPage
  | assumeRole (accountId : String)
  | describeFileSystems (region : String)
deriving DecidableEq, Repr

/-- A boto3 session: the caller's own, a role-assumed one, or the
`mock_session` marker returned by `assume_role` in dry-run mode. -/
inductive Session where
  | caller
  | assumed (accountId : String)
  | mock
deriving DecidableEq, Repr

/-- Outcome of the STS `get_caller_identity` check in `connect`. -/
inductive AuthOutcome where
  | ok (arn : String) (account : String)
  | noCredentials
  | clientError (msg : String)
deriving DecidableEq, Repr

/-- One page of the `list_accounts` paginator: its accounts, or a
`ClientError` code raised while fetching it. -/
abbrev PageResult := Except String (List RawAccount)

/-- Outcome of one region's `describe_file_systems` pagination: the file
systems, or a `ClientError` code. -/
abbrev FsxEnv := Session → String → Except String (List FsxRaw)

/-- `self.govcloud_regions` from `__init__`. -/
def govcloudRegions : List String := ["us-gov-west-1", "us-gov-east-1"]

/-- `GovCloudFSXInventory.connect`: dry-run returns success without any
call; otherwise the identity check decides success. -/
def connect (dryRun : Bool) (auth : AuthOutcome) : Bool × List ApiCall :=
  if dryRun then (true, [])
  else
    match auth with
    | .ok _ _ => (true, [.getCallerIdentity])
    | .noCredentials => (false, [.getCallerIdentity])
    | .clientError _ => (false, [.getCallerIdentity])

/-- Character-wise comparison of `needle` against the start of `hay`. -/
def matchHere : List Char → List Char → Bool
  | [], _ => true
  | _ :: _, [] => false
  | a :: as, b :: bs => a == b && matchHere as bs

/-- Whether `needle` occurs as a contiguous run inside `hay`, as Python's
`in` operator on strings. -/
def hasSub (needle : List Char) : List Char → Bool
  | [] => matchHere needle []
  | c :: t => matchHere needle (c :: t) || hasSub needle t

/-- Python's `needle in hay.lower()`. -/
def lowerContains (hay needle : String) : Bool :=
  hasSub needle.toList (hay.toList.map Char.toLower)

/-- The marker substring of the account filter in `list_accounts`. -/
def govcloudMarker : String := "govcloud"

/-- The filter condition of `list_accounts`:
`'govcloud' in name.lower() or 'govcloud' in email.lower() or
 account.get('Status') == 'ACTIVE'`. -/
def keepAccount (a : RawAccount) : Bool :=
  lowerContains (a.name.getD "") govcloudMarker ||
  lowerContains (a.email.getD "") govcloudMarker ||
  (a.status == some "ACTIVE")

/-- The record `list_accounts` appends for a kept raw account. -/
def toAccount (a : RawAccount) : Account :=
  { id := a.id
    name := a.name.getD ""
    email := a.email.getD ""
    status := a.status.getD "UNKNOWN" }

/-- The three mock accounts of the dry-run branch of `list_accounts`. -/
def mockAccount1 : Account :=
  { id := "987654321098", name := "Production-GovCloud"
    email := "govcloud-prod@example.com", status := "ACTIVE" }

def mockAccount2 : Account :=
  { id := "876543210987", name := "Development-GovCloud"
    email := "govcloud-dev@example.com", status := "ACTIVE" }

def mockAccount3 : Account :=
  { id := "765432109876", name := "Test-GovCloud"
    email := "govcloud-test@example.com", status := "ACTIVE" }

def mockAccounts : List Account := [mockAccount1, mockAccount2, mockAccount3]

/-- The accounts of all pages, or the first `ClientError` raised while
iterating the paginator (which in the script aborts the whole `try` block). -/
def collectPages : List PageResult → Except String (List RawAccount)
  | [] => .ok []
  | .error e :: _ => .error e
  | .ok page :: rest =>
    match collectPages rest with
    | .ok acc => .ok (page ++ acc)
    | .error e => .error e

/-- One `listAccountsPage` call per page fetched before (and including) a
failing one. -/
def pageCalls : List PageResult → List ApiCall
  | [] => []
  | .ok _ :: rest => .listAccountsPage :: pageCalls rest
  | .error _ :: _ => [.listAccountsPage]

/-- The remediation hint printed on `AccessDeniedException`. -/
def accessDeniedHint : List String :=
  ["ERROR: No permission to access AWS Organizations.",
   "This script requires organizations:ListAccounts permission."]

structure ListAccountsResult where
  accounts : List Account
  messages : List String
  calls : List ApiCall
deriving Repr

/-- `GovCloudFSXInventory.list_accounts`: dry-run returns the mock accounts
without any call; otherwise all pages are folded, filtering with
`keepAccount`, and any `ClientError` makes the whole call return `[]`
(printing the permission hint when the code is `AccessDeniedException`). -/
def list_accounts (dryRun : Bool) (pages : List PageResult) : ListAccountsResult :=
  if dryRun then { accounts := mockAccounts, messages := [], calls := [] }
  else
    match collectPages pages with
    | .ok raws =>
      { accounts := (raws.filter keepAccount).map toAccount
        messages := []
        calls := pageCalls pages }
    | .error e =>
      { accounts := []
        messages :=
          if e = "AccessDeniedException" then accessDeniedHint
          else ["ERROR: Failed to list accounts: " ++ e]
        calls := pageCalls pages }

/-- `GovCloudFSXInventory.assume_role`: dry-run returns the `mock_session`
marker without any call; otherwise an `sts.assume_role` call that either
yields a session for the account or fails with a `ClientError` (returning
`None`). -/
def assume_role (dryRun : Bool) (assumeOk : String → Bool) (accountId : String) :
    Option Session × List ApiCall :=
  if dryRun then (some .mock, [])
  else if assumeOk accountId then (some (.assumed accountId), [.assumeRole accountId])
  else (none, [.assumeRole accountId])

/-- The two mock file systems of the dry-run branch of `list_fsx_systems`. -/
def mockFsx : List FsxRecord :=
  [{ filesystem_id := "fs-0123456789abcdef0", filesystem_type := "LUSTRE"
     region := "us-gov-west-1", creation_time := "2024-01-15"
     lifecycle := "AVAILABLE" },
   { filesystem_id := "fs-abcdef0123456789", filesystem_type := "WINDOWS"
     region := "us-gov-west-1", creation_time := "2024-02-20"
     lifecycle := "AVAILABLE" }]

/-- The record `list_fsx_systems` appends for a page entry in a region. -/
def mkFsxRecord (region : String) (fs : FsxRaw) : FsxRecord :=
  { filesystem_id := fs.fileSystemId
    filesystem_type := fs.fileSystemType
    region := region
    creation_time := fs.creationTime.getD ""
    lifecycle := fs.lifecycle.getD "" }

/-- `GovCloudFSXInventory.list_fsx_systems`: dry-run returns the mock file
systems without any call; otherwise each region of `govcloudRegions` is
queried in order, a `ClientError` in one region being swallowed (`continue`)
so that the remaining regions are still scanned. -/
def list_fsx_systems (dryRun : Bool) (env : FsxEnv) (session : Session) :
    List FsxRecord × List ApiCall :=
  if dryRun then (mockFsx, [])
  else
    govcloudRegions.foldl
      (fun acc region =>
        match env session region with
        | .ok fss =>
          (acc.1 ++ fss.map (mkFsxRecord region),
           acc.2 ++ [.describeFileSystems region])
        | .error _ => (acc.1, acc.2 ++ [.describeFileSystems region]))
      ([], [])

/-- The session `scan_accounts` ends up using for an account, given what
`assume_role` returned: on `None` the non-dry-run path falls back to
`self.session` (the assignment in the `try` cannot fail), while the dry-run
path would skip the account (`none`). -/
def sessionFor (dryRun : Bool) (assumed : Option Session) : Option Session :=
  match assumed with
  | some s => some s
  | none => if dryRun then none else some .caller

/-- The row `scan_accounts` appends for an account and one of its file
systems; `creation_time` is dropped. -/
def mkRow (account : Account) (fsx : FsxRecord) : InventoryRow :=
  { organizationName := account.name
    accountId := account.id
    fsxId := fsx.filesystem_id
    fsxType := fsx.filesystem_type
    region := fsx.region
    lifecycle := fsx.lifecycle }

/-- The rows one iteration of the `scan_accounts` loop contributes. -/
def accountRows (dryRun : Bool) (assumeOk : String → Bool) (env : FsxEnv)
    (account : Account) : List InventoryRow :=
  match sessionFor dryRun (assume_role dryRun assumeOk account.id).1 with
  | none => []
  | some s => ((list_fsx_systems dryRun env s).1).map (mkRow account)

/-- The calls one iteration of the `scan_accounts` loop makes. -/
def accountCalls (dryRun : Bool) (assumeOk : String → Bool) (env : FsxEnv)
    (account : Account) : List ApiCall :=
  (assume_role dryRun assumeOk account.id).2 ++
  (match sessionFor dryRun (assume_role dryRun assumeOk account.id).1 with
   | none => []
   | some s => (list_fsx_systems dryRun env s).2)

/-- `GovCloudFSXInventory.scan_accounts`: the accounts are processed in
order, each appending its rows to the shared `results` list. -/
def scan_accounts (dryRun : Bool) (assumeOk : String → Bool) (env : FsxEnv) :
    List Account → List InventoryRow
  | [] => []
  | a :: rest =>
    accountRows dryRun assumeOk env a ++ scan_accounts dryRun assumeOk env rest

/-- The calls `scan_accounts` makes, account by account. -/
def scanCalls (dryRun : Bool) (assumeOk : String → Bool) (env : FsxEnv) :
    List Account → List ApiCall
  | [] => []
  | a :: rest =>
    accountCalls dryRun assumeOk env a ++ scanCalls dryRun assumeOk env rest

/-- The (Account, FileSystemRecord) pairs observed during a scan, in the
order the scan enumerates them. -/
def accountPairs (dryRun : Bool) (assumeOk : String → Bool) (env : FsxEnv)
    (account : Account) : List (Account × FsxRecord) :=
  match sessionFor dryRun (assume_role dryRun assumeOk account.id).1 with
  | none => []
  | some s => ((list_fsx_systems dryRun env s).1).map (fun fsx => (account, fsx))

def observedPairs (dryRun : Bool) (assumeOk : String → Bool) (env : FsxEnv) :
    List Account → List (Account × FsxRecord)
  | [] => []
  | a :: rest =>
    accountPairs dryRun assumeOk env a ++ observedPairs dryRun assumeOk env rest

/-- The account ids for which `scan_accounts` actually invokes
`list_fsx_systems` (i.e. the accounts not skipped). -/
def queriedIds (dryRun : Bool) (assumeOk : String → Bool) :
    List Account → List String
  | [] => []
  | a :: rest =>
    (match sessionFor dryRun (assume_role dryRun assumeOk a.id).1 with
     | none => []
     | some _ => [a.id]) ++ queriedIds dryRun assumeOk rest

/-- The `fieldnames` list of `export_to_csv`. -/
def csvHeader : List String :=
  ["Organization Name", "GovCloud Account ID", "FSX ID",
   "FSX Type", "Region", "Lifecycle"]

/-- The cells `csv.DictWriter` emits for a row, in `fieldnames` order. -/
def rowCells (r : InventoryRow) : List String :=
  [r.organizationName, r.accountId, r.fsxId, r.fsxType, r.region, r.lifecycle]

/-- What `export_to_csv` produces: `file` is the content of the CSV file
when one is created (`none` when no file is written), `preview` is the
dry-run console preview (row count and the first three rows). -/
structure ExportOutcome where
  file : Option (List (List String))
  preview : Option (Nat × List InventoryRow)
deriving DecidableEq, Repr

/-- `GovCloudFSXInventory.export_to_csv`: dry-run prints a preview and
creates no file; otherwise a file with header and rows is written only when
`results` is non-empty, and with empty `results` nothing is written at all. -/
def export_to_csv (dryRun : Bool) (results : List InventoryRow) : ExportOutcome :=
  if dryRun then
    { file := none, preview := some (results.length, results.take 3) }
  else if results.isEmpty then
    { file := none, preview := none }
  else
    { file := some (csvHeader :: results.map rowCells), preview := none }

/-- How a run ends: `sys.exit` with a code, or normal completion (the
process then exits with status 0) carrying the scanned rows and the export
outcome. -/
inductive RunResult where
  | exited (code : Nat)
  | completed (rows : List InventoryRow) (outcome : ExportOutcome)
deriving DecidableEq, Repr

/-- The external world a run interacts with. -/
structure Env where
  auth : AuthOutcome
  pages : List PageResult
  assumeOk : String → Bool
  fsx : FsxEnv

/-- `GovCloudFSXInventory.run`: `sys.exit(1)` when `connect` fails or the
account list is empty; otherwise scan, export and complete. -/
def run (dryRun : Bool) (env : Env) : RunResult × List ApiCall :=
  let c := connect dryRun env.auth
  if c.1 then
    let la := list_accounts dryRun env.pages
    if la.accounts.isEmpty then (.exited 1, c.2 ++ la.calls)
    else
      let results := scan_accounts dryRun env.assumeOk env.fsx la.accounts
      (.completed results (export_to_csv dryRun results),
       c.2 ++ la.calls ++ scanCalls dryRun env.assumeOk env.fsx la.accounts)
  else (.exited 1, c.2)

/-- The process exit status implied by a `RunResult`. -/
def exitCode : RunResult → Nat
  | .exited c => c
  | .completed _ _ => 0

/-- The inventory rows a dry run derives from the fixed fixtures: each mock
account paired with each mock file system, in scan order. -/
def dryRunFixtureRows : List InventoryRow :=
  mockFsx.map (mkRow mockAccount1) ++ mockFsx.map (mkRow mockAccount2) ++
    mockFsx.map (mkRow mockAccount3)

/-- A concrete world in which the run reaches the Reporter with zero
inventory rows: one active account, role assumption failing, and FSX
returning no file systems in either region. -/
def emptyScanEnv : Env :=
  { auth := .ok "arn:aws:iam::123456789012:user/alice" "123456789012"
    pages := [.ok [{ id := "111122223333", name := some "Prod"
                     email := some "prod@example.com", status := some "ACTIVE" }]]
    assumeOk := fun _ => false
    fsx := fun _ _ => .ok [] }

/-- C1 (counterexample): a run that reaches the Reporter with an empty row
sequence creates no CSV file at all, so no six-column header row is written
either — refuting the claim that the header is exported regardless of row
count. -/
theorem reporter_empty_rows_no_file :
    (run false emptyScanEnv).1 =
      .completed [] { file := none, preview := none } := rfl

/-- C1 (amended): for every run that reaches the Reporter with a non-empty
row sequence, the exported CSV file starts with the header row of exactly
six columns in the order Organization Name, GovCloud Account ID, FSX ID,
FSX Type, Region, Lifecycle; when the row sequence is empty no file (hence
neither header nor content rows) is written, and in both cases the run
completes without failing. -/
theorem reporter_header_six_columns (env : Env)
    (hauth : (connect false env.auth).1 = true)
    (hacc : (list_accounts false env.pages).accounts.isEmpty = false) :
    ∃ rows outcome, (run false env).1 = RunResult.completed rows outcome ∧
      (rows ≠ [] →
        outcome.file = some (csvHeader :: rows.map rowCells) ∧
        csvHeader = ["Organization Name", "GovCloud Account ID", "FSX ID",
                     "FSX Type", "Region", "Lifecycle"] ∧
        csvHeader.length = 6) ∧
      (rows = [] → outcome.file = none) ∧
      exitCode (run false env).1 = 0 := by
  refine ⟨scan_accounts false env.assumeOk env.fsx
            (list_accounts false env.pages).accounts,
          export_to_csv false (scan_accounts false env.assumeOk env.fsx
            (list_accounts false env.pages).accounts), ?_, ?_, ?_, ?_⟩
  · simp [run, hauth, hacc]
  · intro hrows
    refine ⟨?_, rfl, rfl⟩
    cases hns : scan_accounts false env.assumeOk env.fsx
        (list_accounts false env.pages).accounts with
    | nil => exact absurd hns hrows
    | cons r rs => simp [export_to_csv, hns]
  · intro hrows
    simp [export_to_csv, hrows]
  · simp [run, hauth, hacc, exitCode]

/-- C1 (witness for the amended theorem). -/
theorem reporter_header_six_columns_witness :
    ∃ rows outcome, (run false emptyScanEnv).1 = RunResult.completed rows outcome ∧
      (rows ≠ [] →
        outcome.file = some (csvHeader :: rows.map rowCells) ∧
        csvHeader = ["Organization Name", "GovCloud Account ID", "FSX ID",
                     "FSX Type", "Region", "Lifecycle"] ∧
        csvHeader.length = 6) ∧
      (rows = [] → outcome.file = none) ∧
      exitCode (run false emptyScanEnv).1 = 0 :=
  reporter_header_six_columns emptyScanEnv (by decide) (by decide)

/-- C2: every account record emitted by `list_accounts` (outside dry-run)
has status "ACTIVE", or carries the marker substring "govcloud"
case-insensitively in its name or email; records satisfying neither
condition are excluded. -/
theorem lister_filter_active_or_marker (pages : List PageResult) (a : Account)
    (ha : a ∈ (list_accounts false pages).accounts) :
    a.status = "ACTIVE" ∨ lowerContains a.name govcloudMarker = true ∨
      lowerContains a.email govcloudMarker = true := by
  simp only [list_accounts, Bool.false_eq_true, if_false] at ha
  cases hcp : collectPages pages with
  | error e => rw [hcp] at ha; simp at ha
  | ok raws =>
    rw [hcp] at ha
    simp only [List.mem_map] at ha
    obtain ⟨raw, hraw, rfl⟩ := ha
    rw [List.mem_filter] at hraw
    obtain ⟨-, hkeep⟩ := hraw
    simp only [keepAccount, Bool.or_eq_true, beq_iff_eq] at hkeep
    rcases hkeep with (hname | hemail) | hstatus
    · exact Or.inr (Or.inl hname)
    · exact Or.inr (Or.inr hemail)
    · left
      simp [toAccount, hstatus]

/-- C3: a `ClientError` in the first region of `list_fsx_systems` (access
denied or any other code) does not abort the scan: the second region is
still queried and its records are all returned, and subsequent accounts are
still processed, the account's records landing in the final output. -/
theorem scanner_region_error_isolated (env : FsxEnv) (assumeOk : String → Bool)
    (s : Session) (errCode : String) (recs : List FsxRaw)
    (a : Account) (rest : List Account)
    (hs : sessionFor false (assume_role false assumeOk a.id).1 = some s)
    (h1 : env s "us-gov-west-1" = .error errCode)
    (h2 : env s "us-gov-east-1" = .ok recs) :
    (list_fsx_systems false env s).1 = recs.map (mkFsxRecord "us-gov-east-1") ∧
    scan_accounts false assumeOk env (a :: rest) =
      (recs.map (mkFsxRecord "us-gov-east-1")).map (mkRow a) ++
        scan_accounts false assumeOk env rest := by
  have hfsx : (list_fsx_systems false env s).1 =
      recs.map (mkFsxRecord "us-gov-east-1") := by
    simp [list_fsx_systems, govcloudRegions, h1, h2]
  refine ⟨hfsx, ?_⟩
  simp [scan_accounts, accountRows, hs, hfsx]

/-- The two file systems of the C3 scenario. -/
def c3Recs : List FsxRaw :=
  [{ fileSystemId := "fs-1111", fileSystemType := "LUSTRE"
     creationTime := some "2024-01-01", lifecycle := some "AVAILABLE" },
   { fileSystemId := "fs-2222", fileSystemType := "WINDOWS"
     creationTime := some "2024-01-02", lifecycle := some "AVAILABLE" }]

/-- A world where the first region denies access and the second returns the
two file systems of `c3Recs`. -/
def c3Env : FsxEnv := fun _ region =>
  if region = "us-gov-west-1" then .error "AccessDenied" else .ok c3Recs

def c3Account : Account :=
  { id := "111122223333", name := "Gov Prod"
    email := "prod@example.com", status := "ACTIVE" }

/-- C3 (witness). -/
theorem scanner_region_error_isolated_witness :
    (list_fsx_systems false c3Env (Session.assumed "111122223333")).1 =
      c3Recs.map (mkFsxRecord "us-gov-east-1") ∧
    scan_accounts false (fun _ => true) c3Env (c3Account :: []) =
      (c3Recs.map (mkFsxRecord "us-gov-east-1")).map (mkRow c3Account) ++
        scan_accounts false (fun _ => true) c3Env [] :=
  scanner_region_error_isolated c3Env (fun _ => true)
    (Session.assumed "111122223333") "AccessDenied" c3Recs c3Account []
    (by decide) rfl rfl

/-- C4: in a non-dry-run scan, when role assumption fails for an account,
`assume_role` returns `None`, `scan_accounts` falls back to the caller's own
session, and the FSX query is still performed for that account with that
session; the run is not aborted and subsequent accounts are still scanned. -/
theorem scanner_role_fallback_caller (assumeOk : String → Bool) (env : FsxEnv)
    (account : Account) (rest : List Account)
    (h : assumeOk account.id = false) :
    (assume_role false assumeOk account.id).1 = none ∧
    sessionFor false (assume_role false assumeOk account.id).1 =
      some Session.caller ∧
    scan_accounts false assumeOk env (account :: rest) =
      ((list_fsx_systems false env Session.caller).1).map (mkRow account) ++
        scan_accounts false assumeOk env rest := by
  have h1 : (assume_role false assumeOk account.id).1 = none := by
    simp [assume_role, h]
  refine ⟨h1, by simp [sessionFor, h1], ?_⟩
  simp [scan_accounts, accountRows, sessionFor, h1]

def c4Account : Account :=
  { id := "444455556666", name := "Gov Dev"
    email := "dev@example.com", status := "ACTIVE" }

/-- A world where every FSX query returns no file systems. -/
def noFsxEnv : FsxEnv := fun _ _ => .ok []

/-- C4 (witness). -/
theorem scanner_role_fallback_caller_witness :
    (assume_role false (fun _ => false) c4Account.id).1 = none ∧
    sessionFor false (assume_role false (fun _ => false) c4Account.id).1 =
      some Session.caller ∧
    scan_accounts false (fun _ => false) noFsxEnv (c4Account :: []) =
      ((list_fsx_systems false noFsxEnv Session.caller).1).map (mkRow c4Account) ++
        scan_accounts false (fun _ => false) noFsxEnv [] :=
  scanner_role_fallback_caller (fun _ => false) noFsxEnv c4Account [] (by decide)

/-- C5: a run exits with status 0 exactly when authentication succeeds and
the account list is non-empty; any authentication failure or empty account
list forces a non-zero exit, and the number of inventory rows found plays no
role in the exit status. -/
theorem run_exit_zero_iff (dryRun : Bool) (env : Env) :
    exitCode (run dryRun env).1 = 0 ↔
      ((connect dryRun env.auth).1 = true ∧
       (list_accounts dryRun env.pages).accounts ≠ []) := by
  unfold run
  cases hc : (connect dryRun env.auth).1 with
  | false => simp [hc, exitCode]
  | true =>
    cases hl : (list_accounts dryRun env.pages).accounts with
    | nil => simp [hc, hl, exitCode]
    | cons a rest => simp [hc, hl, exitCode]

/-- C6: the rows `scan_accounts` outputs are exactly the image, in order, of
the (Account, FileSystemRecord) pairs observed during the same scan: each
row comes from exactly one observed pair (no orphans), each observed pair
yields exactly one row (no duplication), and the counts agree. -/
theorem rows_biject_observed_pairs (dryRun : Bool) (assumeOk : String → Bool)
    (env : FsxEnv) (accounts : List Account) :
    scan_accounts dryRun assumeOk env accounts =
      (observedPairs dryRun assumeOk env accounts).map (fun p => mkRow p.1 p.2) ∧
    (scan_accounts dryRun assumeOk env accounts).length =
      (observedPairs dryRun assumeOk env accounts).length := by
  have main : scan_accounts dryRun assumeOk env accounts =
      (observedPairs dryRun assumeOk env accounts).map (fun p => mkRow p.1 p.2) := by
    induction accounts with
    | nil => rfl
    | cons a rest ih =>
      simp only [scan_accounts, observedPairs, List.map_append, ih]
      congr 1
      unfold accountRows accountPairs
      cases sessionFor dryRun (assume_role dryRun assumeOk a.id).1 with
      | none => rfl
      | some s => simp [List.map_map, Function.comp]
  exact ⟨main, by rw [main, List.length_map]⟩

/-- C7: a dry run makes no network call in any component, and its outcome is
fully determined by the hard-coded fixtures: the scanned rows are exactly
the mock accounts joined with the mock file systems, previewed (count and
first three rows) with no file created. -/
theorem dry_run_no_calls_fixture_data (env : Env) :
    run true env =
      (RunResult.completed dryRunFixtureRows
        { file := none
          preview := some (dryRunFixtureRows.length, dryRunFixtureRows.take 3) },
       []) := rfl

/-- C8: a dry run with no other flags yields exactly 3 mock accounts, each
FSX query yielding exactly 2 mock file systems, for 6 inventory rows total;
the Reporter prints only a preview (row count and the first three rows) and
creates no file. -/
theorem dry_run_default_scenario (env : Env) :
    (list_accounts true env.pages).accounts.length = 3 ∧
    (∀ s, ((list_fsx_systems true env.fsx s).1).length = 2) ∧
    (match (run true env).1 with
     | .completed rows outcome =>
         rows.length = 6 ∧ outcome.file = none ∧
         outcome.preview = some (rows.length, rows.take 3) ∧
         (rows.take 3).length = 3
     | .exited _ => False) :=
  ⟨rfl, fun _ => rfl, ⟨rfl, rfl, rfl, rfl⟩⟩

/-- C9: when the account-listing pagination raises `AccessDeniedException`,
`list_accounts` prints the specific permission hint and returns the empty
sequence — discarding whatever accounts earlier pages had accumulated — and
the caller then treats the empty list as fatal, exiting with status 1. -/
theorem lister_access_denied_fatal (pages : List PageResult)
    (auth : AuthOutcome) (assumeOk : String → Bool) (fsx : FsxEnv)
    (he : collectPages pages = .error "AccessDeniedException")
    (hauth : (connect false auth).1 = true) :
    (list_accounts false pages).accounts = [] ∧
    (list_accounts false pages).messages = accessDeniedHint ∧
    (run false { auth := auth, pages := pages, assumeOk := assumeOk,
                 fsx := fsx }).1 = RunResult.exited 1 := by
  have hacc : (list_accounts false pages).accounts = [] := by
    simp [list_accounts, he]
  refine ⟨hacc, ?_, ?_⟩
  · simp [list_accounts, he]
  · simp [run, hauth, hacc]

/-- Two pages: a successful one that accumulates two accounts, then an
access-denied failure. -/
def c9Pages : List PageResult :=
  [.ok [{ id := "111122223333", name := some "Gov Prod"
          email := some "prod@example.com", status := some "ACTIVE" },
        { id := "444455556666", name := some "Gov Dev"
          email := some "dev@example.com", status := some "ACTIVE" }],
   .error "AccessDeniedException"]

/-- C9 (witness). -/
theorem lister_access_denied_fatal_witness :
    (list_accounts false c9Pages).accounts = [] ∧
    (list_accounts false c9Pages).messages = accessDeniedHint ∧
    (run false { auth := .ok "arn:aws:iam::123456789012:user/alice" "123456789012"
                 pages := c9Pages, assumeOk := fun _ => true,
                 fsx := noFsxEnv }).1 = RunResult.exited 1 :=
  lister_access_denied_fatal c9Pages
    (.ok "arn:aws:iam::123456789012:user/alice" "123456789012")
    (fun _ => true) noFsxEnv rfl rfl

/-- C10: outside dry-run mode the skip branch of `scan_accounts` is
unreachable: whatever `assume_role` returns, the session fallback always
produces a usable session, so `list_fsx_systems` is invoked for every listed
account and no account is skipped. -/
theorem nondry_skip_unreachable (assumeOk : String → Bool)
    (accounts : List Account) :
    (∀ a : Account,
      (sessionFor false (assume_role false assumeOk a.id).1).isSome = true) ∧
    queriedIds false assumeOk accounts = accounts.map (fun a => a.id) := by
  have hsess : ∀ id : String,
      (sessionFor false (assume_role false assumeOk id).1).isSome = true := by
    intro id
    by_cases h : assumeOk id = true
    · simp [assume_role, sessionFor, h]
    · simp [assume_role, sessionFor, h]
  refine ⟨fun a => hsess a.id, ?_⟩
  induction accounts with
  | nil => rfl
  | cons a rest ih =>
    cases hs : sessionFor false (assume_role false assumeOk a.id).1 with
    | none =>
      have := hsess a.id
      rw [hs] at this
      simp at this
    | some s => simp [queriedIds, hs, ih]

/-- An active account without the marker substring, exercising the status
branch of the filter. -/
def c2Raw : RawAccount :=
  { id := "777788889999", name := some "Ops"
    email := some "ops@example.com", status := some "ACTIVE" }

/-- C2 (witness). -/
theorem lister_filter_active_or_marker_witness :
    (toAccount c2Raw).status = "ACTIVE" ∨
    lowerContains (toAccount c2Raw).name govcloudMarker = true ∨
    lowerContains (toAccount c2Raw).email govcloudMarker = true :=
  lister_filter_active_or_marker [.ok [c2Raw]] (toAccount c2Raw) (by decide)
